import Mathlib

/-!
# Verification of `ModeDashboardExecutionsExtractor`

A shallow embedding of
`databuilder/extractor/dashboard/mode_dashboard_executions_extractor.py`:
an extractor that pulls Mode dashboard execution (run) metadata by joining
three REST API calls, normalizing the run timestamp to an epoch integer,
and mapping each record to a typed `DashboardExecution` model.

The generic framework pieces the file configures (the REST query engine,
the transformers, config scoping) are external to the repository fragment;
where their behaviour decides a property, the corresponding definition is
marked `Modelled from the spec:` and follows the specification's words.
-/

namespace ModeDashboard

/-- A JSON-ish scalar value carried in a flattened record: the REST query
engine extracts string fields, and the timestamp transformer rewrites one
field to an integer epoch. -/
inductive JValue where
  | str (s : String)
  | int (n : Int)
deriving DecidableEq, Repr

/-- A flattened record: an association list from field names to values.
Lookup takes the first binding, so bindings added at the front override
older ones (mirroring `dict.update`). -/
abbrev Record := List (String × JValue)

/-- First-match field lookup in a record. -/
def lookupField (k : String) : Record → Option JValue
  | [] => none
  | (k', v) :: rest => if k' = k then some v else lookupField k rest

/-- The basic-auth credential pair built by `HTTPBasicAuth(user, password)`. -/
structure HTTPBasicAuth where
  username : String
  password : String
deriving DecidableEq, Repr

/-- One dependent GET step of a `RestApiQuery`: the url template, the
request params (the auth pair), the JSONPath expression, the names given to
the extracted fields, and the two behaviour flags passed to the
constructor. -/
structure RestApiQuerySpec where
  url : String
  auth : HTTPBasicAuth
  json_path : String
  field_names : List String
  skip_no_result : Bool
  json_path_contains_or : Bool
deriving DecidableEq, Repr

/-- A REST API query plan: either a seed (a fixed list of records) or a
dependent GET step joined onto a previous query
(`RestApiQuery(query_to_join=..., ...)`). -/
inductive RestApiQuery where
  | seed (seed_record : List Record)
  | query (query_to_join : RestApiQuery) (step : RestApiQuerySpec)
deriving DecidableEq, Repr

/-- A value held in a configuration tree: a plain string, a record-shaped
dictionary, or a built query object (the `REST_API_QUERY` entry). -/
inductive CfgValue where
  | str (s : String)
  | dict (r : Record)
  | q (rq : RestApiQuery)
deriving DecidableEq, Repr

/-- A configuration object (`ConfigTree`): dotted string keys to values. -/
abbrev Config := List (String × CfgValue)

/-- First-match lookup in a configuration. -/
def cfgLookup (k : String) : Config → Option CfgValue
  | [] => none
  | (k', v) :: rest => if k' = k then some v else cfgLookup k rest

/-- `conf.get_string(key)`: succeeds only when the key is bound to a
string; a missing key raises (here: `Except.error` naming the key). -/
def getString (conf : Config) (k : String) : Except String String :=
  match cfgLookup k conf with
  | some (.str s) => .ok s
  | _ => .error ("missing required configuration key " ++ k)

/-- Whether `pre` is a prefix of `s`, compared character by character. -/
def strHasPrefix (pre s : String) : Bool :=
  pre.toList.isPrefixOf s.toList

/-- Drop the first `n` characters of `s`. -/
def strDrop (s : String) (n : Nat) : String :=
  String.mk (s.toList.drop n)

/-- Modelled from the spec: `Scoped.get_scoped_conf(conf, scope)` (the
`Scoped` helper is external to this fragment) — "Each sub-component
receives its own scoped configuration view": the bindings of `conf` whose
keys live under `scope ++ "."`, with the prefix stripped. -/
def getScopedConf (conf : Config) (scope : String) : Config :=
  conf.filterMap (fun kv =>
    if strHasPrefix (scope ++ ".") kv.1 then
      some (strDrop kv.1 (scope.length + 1), kv.2)
    else none)

/-- Modelled from the spec: `a.with_fallback(b)` (pyhocon, external) layers
the scoped view `a` over the defaults `b`: lookups try `a` first. -/
def withFallback (a b : Config) : Config := a ++ b

-- CONFIG KEYS (source lines 17-19)
def ORGANIZATION : String := "organization"
def MODE_ACCESS_TOKEN : String := "mode_user_token"
def MODE_PASSWORD_TOKEN : String := "mode_password_token"

/-- Modelled from the spec: the configuration key under which
`RestAPIExtractor` (external) reads its query; the exact key string is
external to this fragment. -/
def REST_API_QUERY : String := "restapi_query"

/-- Modelled from the spec: the configuration key under which
`RestAPIExtractor` (external) reads the constant fields injected into every
record ("a constant field injection"). -/
def STATIC_RECORD_DICT : String := "static_record_dict"

/-- Modelled from the spec: the configuration key naming the field the
timestamp normalizer targets ("converts one named ISO-8601 field"). -/
def FIELD_NAME : String := "field_name"

/-- Modelled from the spec: the configuration key naming the model class
the record-to-model mapper instantiates. -/
def MODEL_CLASS : String := "model_class"

/-- Modelled from the spec: the scope of the external `RestAPIExtractor`
(`self._extractor.get_scope()`). -/
def restapiScope : String := "extractor.restapi"

/-- Modelled from the spec: the scope of the external
`TimestampStringToEpoch` transformer. -/
def tsScope : String := "transformer.timestamp_str_to_epoch"

/-- Modelled from the spec: the scope of the external `DictToModel`
transformer. -/
def dtmScope : String := "transformer.dict_to_model"

/-- `ModeDashboardExecutionsExtractor.get_scope` (source line 74-76). -/
def get_scope : String := "extractor.mode_dashboard_execution"

/-- The opening-brace character of a url template placeholder. -/
def obrace : Char := Char.ofNat 123

/-- The closing-brace character of a url template placeholder. -/
def cbrace : Char := Char.ofNat 125

/-- `'https://app.mode.com/api/{organization}/spaces?filter=all'`
(source line 91). -/
def spacesUrl : String :=
  "https://app.mode.com/api/" ++ String.mk [obrace] ++ "organization"
    ++ String.mk [cbrace] ++ "/spaces?filter=all"

/-- `'https://app.mode.com/api/{organization}/spaces/{dashboard_group_id}/reports'`
(source line 101). -/
def reportsUrl : String :=
  "https://app.mode.com/api/" ++ String.mk [obrace] ++ "organization"
    ++ String.mk [cbrace] ++ "/spaces/" ++ String.mk [obrace]
    ++ "dashboard_group_id" ++ String.mk [cbrace] ++ "/reports"

/-- `'https://app.mode.com{last_run_resource_path}'` (source line 108). -/
def lastRunUrl : String :=
  "https://app.mode.com" ++ String.mk [obrace] ++ "last_run_resource_path"
    ++ String.mk [cbrace]

/-- The spaces step (source lines 90-98): extracts one `dashboard_group_id`
per space; constructed with the `RestApiQuery` defaults
`skip_no_result=False`, `json_path_contains_or=False`. -/
def spacesSpec (auth : HTTPBasicAuth) : RestApiQuerySpec :=
  { url := spacesUrl
    auth := auth
    json_path := "_embedded.spaces[*].[token]"
    field_names := ["dashboard_group_id"]
    skip_no_result := false
    json_path_contains_or := false }

/-- The reports step (source lines 100-106): extracts the pair
(`dashboard_id`, `last_run_resource_path`) with `skip_no_result=True` and
`json_path_contains_or=True`. -/
def reportsSpec (auth : HTTPBasicAuth) : RestApiQuerySpec :=
  { url := reportsUrl
    auth := auth
    json_path :=
      "(_embedded.reports[*].token) | (_embedded.reports[*]._links.last_run.href)"
    field_names := ["dashboard_id", "last_run_resource_path"]
    skip_no_result := true
    json_path_contains_or := true }

/-- The run-state step (source lines 108-112): extracts
(`execution_state`, `execution_timestamp`) with `skip_no_result=True`. -/
def lastRunSpec (auth : HTTPBasicAuth) : RestApiQuerySpec :=
  { url := lastRunUrl
    auth := auth
    json_path := "[state,completed_at]"
    field_names := ["execution_state", "execution_timestamp"]
    skip_no_result := true
    json_path_contains_or := false }

/-- `ModeDashboardExecutionsExtractor._build_restapi_query`
(source lines 78-114): seed record from the configured organization, then
the spaces, reports and run-state steps chained by `query_to_join`;
`conf.get_string` on a missing key fails the build. -/
def build_restapi_query (conf : Config) : Except String RestApiQuery := do
  let org ← getString conf ORGANIZATION
  let seed_record : List Record := [[("organization", JValue.str org)]]
  let seed_query := RestApiQuery.seed seed_record
  let user ← getString conf MODE_ACCESS_TOKEN
  let pw ← getString conf MODE_PASSWORD_TOKEN
  let auth : HTTPBasicAuth := ⟨user, pw⟩
  let spaces_query := RestApiQuery.query seed_query (spacesSpec auth)
  let last_run_resource_path_query :=
    RestApiQuery.query spaces_query (reportsSpec auth)
  let last_run_state_query :=
    RestApiQuery.query last_run_resource_path_query (lastRunSpec auth)
  pure last_run_state_query

/-! ## Execution semantics of the query chain

The engine that executes a `RestApiQuery` (`databuilder.rest_api`) is
external to this fragment; its behaviour below is modelled from the spec
sentences of section 2 and 4.1. -/

/-- An HTTP GET request issued by one step: the url template, the joined
input record whose fields instantiate the template, and the attached
basic-auth pair. -/
structure Request where
  url : String
  input : Record
  auth : HTTPBasicAuth
deriving DecidableEq, Repr

/-- A computation together with the list of HTTP requests it issues. -/
structure NetM (α : Type) where
  val : α
  requests : List Request
deriving Repr

instance : Monad NetM where
  pure a := ⟨a, []⟩
  bind m f := ⟨(f m.val).val, m.requests ++ (f m.val).requests⟩

/-- Issue one HTTP request. -/
def doRequest (req : Request) : NetM Unit := ⟨(), [req]⟩

/-- Modelled from the spec: the external world a step queries. Given a
step and the joined input record that instantiates its url template, the
oracle returns the field projection the step's JSONPath expression
extracts from the JSON response — a list of field-value tuples (one per
matched entry, ordered as the step's `field_names`), or `none` when
nothing in the response resolves ("unresolved results"). -/
def Api : Type := RestApiQuerySpec → Record → Option (List (List JValue))

/-- Modelled from the spec: executing one dependent GET step over its
input records ("three sequential HTTP GET steps, each consuming fields
produced by the prior step and extracting a field projection from the JSON
response"). For each input record one request is issued; when the response
resolves, each extracted tuple is zipped with the step's `field_names` and
layered over the unchanged input record; when nothing resolves, the step
skips that input if `skip_no_result` is set and otherwise fails the run. -/
def executeStepM (api : Api) (st : RestApiQuerySpec) :
    List Record → NetM (Except String (List Record))
  | [] => pure (.ok [])
  | r :: rest => do
    doRequest { url := st.url, input := r, auth := st.auth }
    match api st r with
    | none =>
      if st.skip_no_result then
        executeStepM api st rest
      else
        pure (.error ("No result from json path " ++ st.json_path))
    | some tuples => do
      let res ← executeStepM api st rest
      pure (do
        let out ← res
        pure ((tuples.map fun t => (st.field_names.zip t) ++ r) ++ out))

/-- Modelled from the spec: executing a whole query plan — the seed yields
its fixed records without touching the network, and each chained step
consumes exactly the records produced by the query it joins. -/
def executeQueryM (api : Api) : RestApiQuery → NetM (Except String (List Record))
  | .seed seed_record => pure (.ok seed_record)
  | .query query_to_join st => do
    match ← executeQueryM api query_to_join with
    | .error e => pure (.error e)
    | .ok inp => executeStepM api st inp

/-! ## Transformers -/

/-- One decimal digit of a timestamp string. -/
def digitVal (c : Char) : Option Nat :=
  if c.isDigit then some (c.toNat - 48) else none

/-- Two decimal digits. -/
def digits2 (a b : Char) : Option Nat := do
  pure ((← digitVal a) * 10 + (← digitVal b))

/-- Four decimal digits. -/
def digits4 (a b c d : Char) : Option Nat := do
  pure ((← digitVal a) * 1000 + (← digitVal b) * 100
    + (← digitVal c) * 10 + (← digitVal d))

/-- Days from 1970-01-01 to the given civil date (proleptic Gregorian). -/
def daysFromCivil (y : Int) (m d : Nat) : Int :=
  let y : Int := if m ≤ 2 then y - 1 else y
  let era : Int := (if 0 ≤ y then y else y - 399) / 400
  let yoe : Int := y - era * 400
  let mp : Nat := (m + 9) % 12
  let doy : Int := ((153 * mp + 2) / 5 + d - 1 : Nat)
  let doe : Int := yoe * 365 + yoe / 4 - yoe / 100 + doy
  era * 146097 + doe - 719468

/-- Modelled from the spec: the ISO-8601 to epoch conversion performed by
the external `TimestampStringToEpoch` transformer ("converts one named
ISO-8601 field in the record to an epoch integer"), for timestamps of the
form `YYYY-MM-DDTHH:MM:SSZ`. -/
def isoToEpoch (s : String) : Option Int :=
  match s.toList with
  | [y1, y2, y3, y4, '-', m1, m2, '-', d1, d2, 'T',
     h1, h2, ':', n1, n2, ':', s1, s2, 'Z'] => do
    let y ← digits4 y1 y2 y3 y4
    let mo ← digits2 m1 m2
    let d ← digits2 d1 d2
    let h ← digits2 h1 h2
    let mi ← digits2 n1 n2
    let se ← digits2 s1 s2
    if 1 ≤ mo ∧ mo ≤ 12 ∧ 1 ≤ d ∧ d ≤ 31 ∧ h < 24 ∧ mi < 60 ∧ se < 60 then
      pure (daysFromCivil y mo d * 86400 + h * 3600 + mi * 60 + se)
    else none
  | _ => none

/-- Rewrite the value bound to `k` (every binding of `k`) with `f`,
leaving all other bindings untouched. -/
def setField (k : String) (f : JValue → JValue) : Record → Record
  | [] => []
  | (k', v) :: rest => (k', if k' = k then f v else v) :: setField k f rest

/-- Modelled from the spec: the external `TimestampStringToEpoch`
transformer — rewrites the one configured field from an ISO-8601 string to
an integer epoch value, leaving every other field unchanged; a missing or
unparseable timestamp field is a transformer error. -/
def tsTransform (fieldName : String) (r : Record) : Except String Record :=
  match lookupField fieldName r with
  | some (.str s) =>
    match isoToEpoch s with
    | some n => .ok (setField fieldName (fun _ => .int n) r)
    | none => .error ("cannot parse timestamp " ++ s)
  | _ => .error ("missing timestamp field " ++ fieldName)

/-- Modelled from the spec: the typed execution model the external
`DictToModel` transformer instantiates
(`databuilder.models.dashboard.dashboard_execution.DashboardExecution`) —
"final typed entity, constructed from the normalized record's fields". -/
structure DashboardExecution where
  fields : Record
deriving DecidableEq, Repr

/-- Modelled from the spec: the external `DictToModel` transformer
constructs the model from the record's fields. -/
def dictToModel (r : Record) : DashboardExecution := ⟨r⟩

/-- The two-stage transform chain built in `init` (source lines 47-64):
the timestamp normalizer first, then the record-to-model mapper, applied
in order by the external `ChainedTransformer` ("pass the record through
the transform chain in order", modelled from the spec). -/
def transformChain (tsField : String) (r : Record) :
    Except String DashboardExecution :=
  (tsTransform tsField r).map dictToModel

/-! ## Initialization / wiring -/

/-- The components `ModeDashboardExecutionsExtractor.init` configures: the
built query plan, the constant record injected by the REST extractor, the
field targeted by the timestamp normalizer, and the model class name given
to the record-to-model mapper. -/
structure ModeConfigured where
  restapi_query : RestApiQuery
  static_record : Record
  ts_field : String
  model_class : String
deriving DecidableEq, Repr

/-- Read the query object a configuration binds to a key. -/
def getQueryCfg (conf : Config) (k : String) : Except String RestApiQuery :=
  match cfgLookup k conf with
  | some (.q rq) => .ok rq
  | _ => .error ("missing query configuration " ++ k)

/-- Read the record-shaped dictionary a configuration binds to a key. -/
def getDictCfg (conf : Config) (k : String) : Except String Record :=
  match cfgLookup k conf with
  | some (.dict r) => .ok r
  | _ => .error ("missing dict configuration " ++ k)

/-- Read the string a configuration binds to a key. -/
def getStrCfg (conf : Config) (k : String) : Except String String :=
  match cfgLookup k conf with
  | some (.str s) => .ok s
  | _ => .error ("missing string configuration " ++ k)

/-- `ModeDashboardExecutionsExtractor.init` (source lines 30-64): build
the query plan, then configure the REST extractor with its scoped view
layered over the defaults `{REST_API_QUERY: query, STATIC_RECORD_DICT:
{'product': 'mode'}}`, the timestamp normalizer over the default
`{FIELD_NAME: 'execution_timestamp'}`, and the record-to-model mapper over
the default `{MODEL_CLASS: '...DashboardExecution'}`. Any missing
required key fails initialization. -/
def init (conf : Config) : Except String ModeConfigured := do
  let restapi_query ← build_restapi_query conf
  let restConf := withFallback (getScopedConf conf restapiScope)
    [(REST_API_QUERY, CfgValue.q restapi_query),
     (STATIC_RECORD_DICT, CfgValue.dict [("product", JValue.str "mode")])]
  let q ← getQueryCfg restConf REST_API_QUERY
  let static_record ← getDictCfg restConf STATIC_RECORD_DICT
  let tsConf := withFallback (getScopedConf conf tsScope)
    [(FIELD_NAME, CfgValue.str "execution_timestamp")]
  let ts_field ← getStrCfg tsConf FIELD_NAME
  let dtmConf := withFallback (getScopedConf conf dtmScope)
    [(MODEL_CLASS, CfgValue.str
      "databuilder.models.dashboard.dashboard_execution.DashboardExecution")]
  let model_class ← getStrCfg dtmConf MODEL_CLASS
  pure { restapi_query := q, static_record := static_record,
         ts_field := ts_field, model_class := model_class }

/-- The `init` of the source, lifted into the instrumented network monad:
`init` only reads configuration and constructs objects — it contains no
call to the HTTP layer, so its translation issues no `doRequest`. -/
def initM (conf : Config) : NetM (Except String ModeConfigured) :=
  pure (init conf)

/-! ## Extraction driver -/

/-- Modelled from the spec: the runtime state of the external
`RestAPIExtractor` — the stream of flattened records its query execution
will yield (determined by the network at run time), plus the constant
record it injects into each of them. -/
structure RestAPIExtractorState where
  static_record : Record
  raw_results : List Record
deriving DecidableEq, Repr

/-- Modelled from the spec: one pull from the external `RestAPIExtractor`
("yields one flattened record at a time"; the constant field injection is
layered over each yielded record, constants winning). When the stream is
exhausted it keeps returning `none` and leaves the state unchanged. -/
def RestAPIExtractorState.extract (s : RestAPIExtractorState) :
    Option Record × RestAPIExtractorState :=
  match s.raw_results with
  | [] => (none, s)
  | r :: rest => (some (s.static_record ++ r), { s with raw_results := rest })

/-- The runtime state of an initialized `ModeDashboardExecutionsExtractor`:
the underlying REST extractor plus the configured transform chain. -/
structure ModeState where
  restapi : RestAPIExtractorState
  ts_field : String
  model_class : String
deriving DecidableEq, Repr

/-- The runtime state obtained from a completed `init`, once the network
decides which raw records the query execution will yield. -/
def mkModeState (c : ModeConfigured) (raw_results : List Record) : ModeState :=
  { restapi := { static_record := c.static_record, raw_results := raw_results }
    ts_field := c.ts_field
    model_class := c.model_class }

/-- Python truthiness of a pulled record: an empty mapping is falsy. -/
def recordTruthy (r : Record) : Bool := !r.isEmpty

/-- `ModeDashboardExecutionsExtractor.extract` (source lines 66-72): pull
one record from the underlying REST extractor; if it is falsy (`if not
record`) return `None` without invoking the transform chain; otherwise
return the record passed through the chain. -/
def ModeState.extract (s : ModeState) :
    Option (Except String DashboardExecution) × ModeState :=
  let (rec?, rest) := s.restapi.extract
  let s' : ModeState := { s with restapi := rest }
  match rec? with
  | none => (none, s')
  | some r =>
    if recordTruthy r then (some (transformChain s.ts_field r), s')
    else (none, s')

/-! ## Sample inputs -/

/-- A sample configuration carrying exactly the three required keys. -/
def sampleConf : Config :=
  [("organization", .str "acme"),
   ("mode_user_token", .str "u"),
   ("mode_password_token", .str "p")]

/-- The components `init` produces on `sampleConf`. -/
def sampleConfigured : ModeConfigured :=
  { restapi_query :=
      .query (.query (.query (.seed [[("organization", .str "acme")]])
        (spacesSpec ⟨"u", "p"⟩)) (reportsSpec ⟨"u", "p"⟩))
        (lastRunSpec ⟨"u", "p"⟩)
    static_record := [("product", .str "mode")]
    ts_field := "execution_timestamp"
    model_class :=
      "databuilder.models.dashboard.dashboard_execution.DashboardExecution" }

/-- A sample raw record, as yielded by the run-state step for one report. -/
def sampleRaw : Record :=
  [("dashboard_id", .str "r1"),
   ("execution_state", .str "succeeded"),
   ("execution_timestamp", .str "2021-01-01T00:00:00Z")]

/-- An api oracle that never resolves anything. -/
def emptyApi : Api := fun _ _ => none

end ModeDashboard

/-! # Theorems -/

namespace ModeDashboard

theorem NetM.val_pure {α : Type} (a : α) : (pure a : NetM α).val = a := rfl

theorem NetM.requests_pure {α : Type} (a : α) :
    (pure a : NetM α).requests = [] := rfl

theorem NetM.val_bind {α β : Type} (m : NetM α) (f : α → NetM β) :
    (m >>= f).val = (f m.val).val := rfl

theorem NetM.requests_bind {α β : Type} (m : NetM α) (f : α → NetM β) :
    (m >>= f).requests = m.requests ++ (f m.val).requests := rfl

theorem doRequest_val (req : Request) : (doRequest req).val = () := rfl

theorem doRequest_requests (req : Request) :
    (doRequest req).requests = [req] := rfl

theorem exc_bind_ok {ε α β : Type} (a : α) (f : α → Except ε β) :
    (Except.ok a >>= f) = f a := rfl

theorem exc_bind_error {ε α β : Type} (e : ε) (f : α → Except ε β) :
    ((Except.error e : Except ε α) >>= f) = Except.error e := rfl

theorem exc_pure {ε α : Type} (a : α) : (pure a : Except ε α) = Except.ok a := rfl

/-- A step whose response resolves nothing, on a step constructed with
`skip_no_result=True`, contributes nothing and leaves the run outcome
exactly as if its input branch were absent. -/
theorem executeStepM_skip (api : Api) (st : RestApiQuerySpec)
    (r : Record) (rest : List Record)
    (hskip : st.skip_no_result = true) (hr : api st r = none) :
    (executeStepM api st (r :: rest)).val = (executeStepM api st rest).val := by
  simp [executeStepM, hr, hskip, NetM.val_bind]

/-- Every record a step outputs extends one of its input records with the
freshly extracted bindings layered in front: the joined fields of the
previous step are propagated unchanged. -/
theorem executeStepM_ok_extends (api : Api) (st : RestApiQuerySpec) :
    ∀ (inp out : List Record),
      (executeStepM api st inp).val = Except.ok out →
      ∀ o ∈ out, ∃ r ∈ inp, ∃ fresh : Record, o = fresh ++ r := by
  intro inp
  induction inp with
  | nil =>
    intro out h o ho
    simp only [executeStepM, NetM.val_pure] at h
    cases h
    simp at ho
  | cons r rest ih =>
    intro out h o ho
    simp only [executeStepM, NetM.val_bind] at h
    cases hapi : api st r with
    | none =>
      rw [hapi] at h
      cases hskip : st.skip_no_result with
      | true =>
        simp only [hskip, if_true] at h
        obtain ⟨r', hr', fresh, rfl⟩ := ih out h o ho
        exact ⟨r', List.mem_cons_of_mem _ hr', fresh, rfl⟩
      | false =>
        simp only [hskip, if_false, NetM.val_pure] at h
        cases h
    | some tuples =>
      rw [hapi] at h
      simp only [NetM.val_bind, NetM.val_pure] at h
      cases hrest : (executeStepM api st rest).val with
      | error e => rw [hrest] at h; cases h
      | ok prev =>
        rw [hrest] at h
        simp only [exc_bind_ok, exc_pure] at h
        cases h
        rcases List.mem_append.mp ho with hleft | hright
        · obtain ⟨t, _, rfl⟩ := List.mem_map.mp hleft
          exact ⟨r, List.mem_cons_self _ _, st.field_names.zip t, rfl⟩
        · obtain ⟨r', hr', fresh, rfl⟩ := ih prev hrest o hright
          exact ⟨r', List.mem_cons_of_mem _ hr', fresh, rfl⟩

/-- Rewriting the value bound to one field leaves the lookup of every
other field unchanged. -/
theorem lookupField_setField_ne (k k' : String) (f : JValue → JValue)
    (r : Record) (h : k ≠ k') :
    lookupField k (setField k' f r) = lookupField k r := by
  induction r with
  | nil => rfl
  | cons kv rest ih =>
    obtain ⟨k0, v0⟩ := kv
    by_cases h1 : k0 = k
    · have h0 : ¬ k0 = k' := by rw [h1]; exact h
      simp [setField, lookupField, h0, h1, h]
    · simp [setField, lookupField, h1, ih]

/-- A failed query build fails `init` with the same error. -/
theorem init_error_of_build_error (conf : Config) (e : String)
    (hb : build_restapi_query conf = .error e) : init conf = .error e := by
  simp [init, hb, exc_bind_error]

/-- Inversion of a successful `init`: each configured component comes from
its scoped configuration view layered over the defaults of the source. -/
theorem init_ok_components (conf : Config) (c : ModeConfigured)
    (h : init conf = .ok c) :
    ∃ q0, build_restapi_query conf = .ok q0 ∧
      getQueryCfg (withFallback (getScopedConf conf restapiScope)
        [(REST_API_QUERY, CfgValue.q q0),
         (STATIC_RECORD_DICT, CfgValue.dict [("product", JValue.str "mode")])])
        REST_API_QUERY = .ok c.restapi_query ∧
      getDictCfg (withFallback (getScopedConf conf restapiScope)
        [(REST_API_QUERY, CfgValue.q q0),
         (STATIC_RECORD_DICT, CfgValue.dict [("product", JValue.str "mode")])])
        STATIC_RECORD_DICT = .ok c.static_record ∧
      getStrCfg (withFallback (getScopedConf conf tsScope)
        [(FIELD_NAME, CfgValue.str "execution_timestamp")])
        FIELD_NAME = .ok c.ts_field ∧
      getStrCfg (withFallback (getScopedConf conf dtmScope)
        [(MODEL_CLASS, CfgValue.str
          "databuilder.models.dashboard.dashboard_execution.DashboardExecution")])
        MODEL_CLASS = .ok c.model_class := by
  unfold init at h
  cases hb : build_restapi_query conf with
  | error e => rw [hb] at h; cases h
  | ok q0 =>
    rw [hb] at h
    simp only [exc_bind_ok] at h
    refine ⟨q0, rfl, ?_⟩
    cases hq : getQueryCfg (withFallback (getScopedConf conf restapiScope)
        [(REST_API_QUERY, CfgValue.q q0),
         (STATIC_RECORD_DICT, CfgValue.dict [("product", JValue.str "mode")])])
        REST_API_QUERY with
    | error e => rw [hq] at h; cases h
    | ok qv =>
      rw [hq] at h
      simp only [exc_bind_ok] at h
      cases hd : getDictCfg (withFallback (getScopedConf conf restapiScope)
          [(REST_API_QUERY, CfgValue.q q0),
           (STATIC_RECORD_DICT, CfgValue.dict [("product", JValue.str "mode")])])
          STATIC_RECORD_DICT with
      | error e => rw [hd] at h; cases h
      | ok dv =>
        rw [hd] at h
        simp only [exc_bind_ok] at h
        cases hts : getStrCfg (withFallback (getScopedConf conf tsScope)
            [(FIELD_NAME, CfgValue.str "execution_timestamp")]) FIELD_NAME with
        | error e => rw [hts] at h; cases h
        | ok tsv =>
          rw [hts] at h
          simp only [exc_bind_ok] at h
          cases hmc : getStrCfg (withFallback (getScopedConf conf dtmScope)
              [(MODEL_CLASS, CfgValue.str
                "databuilder.models.dashboard.dashboard_execution.DashboardExecution")])
              MODEL_CLASS with
          | error e => rw [hmc] at h; cases h
          | ok mcv =>
            rw [hmc] at h
            simp only [exc_bind_ok, exc_pure] at h
            cases h
            exact ⟨rfl, rfl, rfl, rfl⟩


/-! ## Claims -/

/-- C1: each call to `extract()` returns either the typed execution model
produced by passing the pulled record through the transform chain — the
timestamp normalizer first, then the record-to-model mapper, in that
order — or the empty signal `none` when the underlying REST extractor
yields no record; in that case the result is `none` under every
transformer configuration, so the transform chain is not invoked, and no
raw untransformed mapping is ever returned. -/
theorem extract_yields_transformed_model_or_none (s : ModeState) :
    (s.restapi.raw_results = [] →
      ∀ f : String, ModeState.extract { s with ts_field := f } =
        (none, { s with ts_field := f })) ∧
    (∀ (r : Record) (rest : List Record),
      s.restapi.raw_results = r :: rest →
      ModeState.extract s =
        ((if recordTruthy (s.restapi.static_record ++ r) then
            some ((tsTransform s.ts_field
              (s.restapi.static_record ++ r)).map dictToModel)
          else none),
         { s with restapi := { s.restapi with raw_results := rest } })) := by
  obtain ⟨⟨static, raws⟩, ts, mc⟩ := s
  constructor
  · intro hempty f
    have h2 : raws = [] := hempty
    subst h2
    rfl
  · intro r rest hcons
    have h2 : raws = r :: rest := hcons
    subst h2
    by_cases ht : recordTruthy (static ++ r)
    · simp [ModeState.extract, RestAPIExtractorState.extract, transformChain, ht]
    · simp [ModeState.extract, RestAPIExtractorState.extract, ht]

/-- Witness for C1: on the exhausted sample state the result is the empty
signal under an arbitrary transformer configuration; on a one-record
sample stream the result is the transformed typed model. -/
theorem extract_yields_transformed_model_or_none_witness :
    ModeState.extract { mkModeState sampleConfigured [] with ts_field := "x" } =
      (none, { mkModeState sampleConfigured [] with ts_field := "x" }) ∧
    ModeState.extract (mkModeState sampleConfigured [sampleRaw]) =
      (some (Except.ok ⟨[("product", .str "mode"),
         ("dashboard_id", .str "r1"),
         ("execution_state", .str "succeeded"),
         ("execution_timestamp", .int 1609459200)]⟩),
       mkModeState sampleConfigured []) := by
  constructor
  · exact (extract_yields_transformed_model_or_none
      (mkModeState sampleConfigured [])).1 rfl "x"
  · have h := (extract_yields_transformed_model_or_none
      (mkModeState sampleConfigured [sampleRaw])).2 sampleRaw [] rfl
    rw [h]
    rfl

/-- C2: under a configuration carrying the organization and both
credentials, the built query plan is exactly the three-step dependent
chain — seed carrying the organization, the spaces step extracting
`dashboard_group_id`, the reports step extracting
(`dashboard_id`, `last_run_resource_path`), and the run-state step
extracting (`execution_state`, `execution_timestamp`) — each step joined
onto the previous one; and every record a step outputs carries the
previous step's join-key bindings unchanged. -/
theorem build_restapi_query_three_step_chain
    (conf : Config) (org user pw : String)
    (horg : getString conf ORGANIZATION = .ok org)
    (huser : getString conf MODE_ACCESS_TOKEN = .ok user)
    (hpw : getString conf MODE_PASSWORD_TOKEN = .ok pw) :
    build_restapi_query conf =
      .ok (.query (.query (.query
          (.seed [[("organization", JValue.str org)]])
          (spacesSpec ⟨user, pw⟩))
          (reportsSpec ⟨user, pw⟩))
          (lastRunSpec ⟨user, pw⟩)) ∧
    (∀ (api : Api) (st : RestApiQuerySpec) (inp out : List Record),
      (executeStepM api st inp).val = Except.ok out →
      ∀ o ∈ out, ∃ r ∈ inp, ∃ fresh : Record, o = fresh ++ r) := by
  refine ⟨?_, fun api st => executeStepM_ok_extends api st⟩
  simp [build_restapi_query, horg, huser, hpw, exc_bind_ok, exc_pure]

/-- Witness for C2: the chain built from the sample configuration. -/
theorem build_restapi_query_three_step_chain_witness :
    build_restapi_query sampleConf =
      .ok (.query (.query (.query
          (.seed [[("organization", JValue.str "acme")]])
          (spacesSpec ⟨"u", "p"⟩))
          (reportsSpec ⟨"u", "p"⟩))
          (lastRunSpec ⟨"u", "p"⟩)) ∧
    (∀ (api : Api) (st : RestApiQuerySpec) (inp out : List Record),
      (executeStepM api st inp).val = Except.ok out →
      ∀ o ∈ out, ∃ r ∈ inp, ∃ fresh : Record, o = fresh ++ r) :=
  build_restapi_query_three_step_chain sampleConf "acme" "u" "p" rfl rfl rfl

/-- C3: for the two dependent steps of the built chain (the reports step
and the run-state step), an input branch whose response resolves none of
the expected fields contributes zero output records and leaves the run
outcome exactly as if that branch were absent — the branch is skipped, the
run does not fail. -/
theorem intermediate_step_missing_fields_skips_branch
    (conf : Config) (api : Api) (r : Record) (rest : List Record)
    (q1 : RestApiQuery) (s2 s3 : RestApiQuerySpec)
    (hbuild : build_restapi_query conf = .ok (.query (.query q1 s2) s3)) :
    (api s2 r = none →
      (executeStepM api s2 (r :: rest)).val
        = (executeStepM api s2 rest).val) ∧
    (api s3 r = none →
      (executeStepM api s3 (r :: rest)).val
        = (executeStepM api s3 rest).val) := by
  unfold build_restapi_query at hbuild
  cases horg : getString conf ORGANIZATION with
  | error e => rw [horg] at hbuild; cases hbuild
  | ok org =>
    rw [horg] at hbuild
    simp only [exc_bind_ok] at hbuild
    cases huser : getString conf MODE_ACCESS_TOKEN with
    | error e => rw [huser] at hbuild; cases hbuild
    | ok user =>
      rw [huser] at hbuild
      simp only [exc_bind_ok] at hbuild
      cases hpw : getString conf MODE_PASSWORD_TOKEN with
      | error e => rw [hpw] at hbuild; cases hbuild
      | ok pw =>
        rw [hpw] at hbuild
        simp only [exc_bind_ok, exc_pure, Except.ok.injEq,
          RestApiQuery.query.injEq] at hbuild
        obtain ⟨⟨hq1, hs2⟩, hs3⟩ := hbuild
        constructor
        · intro hr
          exact executeStepM_skip api s2 r rest (by rw [← hs2]; rfl) hr
        · intro hr
          exact executeStepM_skip api s3 r rest (by rw [← hs3]; rfl) hr

/-- Witness for C3: with an api oracle that resolves nothing, both
dependent steps of the sample chain skip an input branch without failing
the run. -/
theorem intermediate_step_missing_fields_skips_branch_witness :
    (executeStepM emptyApi (reportsSpec ⟨"u", "p"⟩) [[]]).val
      = (executeStepM emptyApi (reportsSpec ⟨"u", "p"⟩) []).val ∧
    (executeStepM emptyApi (lastRunSpec ⟨"u", "p"⟩) [[]]).val
      = (executeStepM emptyApi (lastRunSpec ⟨"u", "p"⟩) []).val := by
  have h := intermediate_step_missing_fields_skips_branch sampleConf emptyApi
    [] [] (.query (.seed [[("organization", JValue.str "acme")]])
      (spacesSpec ⟨"u", "p"⟩)) (reportsSpec ⟨"u", "p"⟩)
    (lastRunSpec ⟨"u", "p"⟩) rfl
  exact ⟨h.1 rfl, h.2 rfl⟩



/-- C4: under a configuration that does not override the timestamp
normalizer's scoped view, initialization configures the normalizer to
target exactly the field `execution_timestamp`, and normalizing the
ISO-8601 input "2021-01-01T00:00:00Z" in that field yields the epoch
integer 1609459200. -/
theorem timestamp_normalizer_targets_execution_timestamp
    (conf : Config) (c : ModeConfigured)
    (hscope : getScopedConf conf tsScope = [])
    (hinit : init conf = .ok c) :
    c.ts_field = "execution_timestamp" ∧
    tsTransform c.ts_field
      [("execution_timestamp", .str "2021-01-01T00:00:00Z")]
      = .ok [("execution_timestamp", .int 1609459200)] := by
  obtain ⟨q0, hb, hq, hd, hts, hmc⟩ := init_ok_components conf c hinit
  rw [hscope] at hts
  have h2 : (Except.ok "execution_timestamp" : Except String String)
      = .ok c.ts_field := hts
  injection h2 with h3
  refine ⟨h3.symm, ?_⟩
  rw [h3.symm]
  rfl

/-- Witness for C4: the sample configuration, which carries only the three
required keys. -/
theorem timestamp_normalizer_targets_execution_timestamp_witness :
    sampleConfigured.ts_field = "execution_timestamp" ∧
    tsTransform sampleConfigured.ts_field
      [("execution_timestamp", .str "2021-01-01T00:00:00Z")]
      = .ok [("execution_timestamp", .int 1609459200)] :=
  timestamp_normalizer_targets_execution_timestamp sampleConf
    sampleConfigured rfl rfl

/-- C5: when the organization or either basic-auth credential key is
absent from the configuration, `init()` — which builds the query chain
first — fails with an error instead of completing, so the failure surfaces
at initialization, before any extraction state exists on which `extract()`
could be called. -/
theorem init_fails_on_missing_required_key (conf : Config)
    (h : cfgLookup ORGANIZATION conf = none ∨
         cfgLookup MODE_ACCESS_TOKEN conf = none ∨
         cfgLookup MODE_PASSWORD_TOKEN conf = none) :
    ∃ e, init conf = .error e := by
  have hb : ∃ e, build_restapi_query conf = .error e := by
    rcases h with h | h | h
    · have h1 : getString conf ORGANIZATION =
          .error ("missing required configuration key " ++ ORGANIZATION) := by
        simp [getString, h]
      exact ⟨_, by unfold build_restapi_query; rw [h1, exc_bind_error]⟩
    · cases horg : getString conf ORGANIZATION with
      | error e =>
        exact ⟨e, by unfold build_restapi_query; rw [horg, exc_bind_error]⟩
      | ok org =>
        have h1 : getString conf MODE_ACCESS_TOKEN =
            .error ("missing required configuration key "
              ++ MODE_ACCESS_TOKEN) := by
          simp [getString, h]
        refine ⟨"missing required configuration key " ++ MODE_ACCESS_TOKEN, ?_⟩
        unfold build_restapi_query
        rw [horg]
        simp only [exc_bind_ok]
        rw [h1, exc_bind_error]
    · cases horg : getString conf ORGANIZATION with
      | error e =>
        exact ⟨e, by unfold build_restapi_query; rw [horg, exc_bind_error]⟩
      | ok org =>
        cases huser : getString conf MODE_ACCESS_TOKEN with
        | error e =>
          refine ⟨e, ?_⟩
          unfold build_restapi_query
          rw [horg]
          simp only [exc_bind_ok]
          rw [huser, exc_bind_error]
        | ok user =>
          have h1 : getString conf MODE_PASSWORD_TOKEN =
              .error ("missing required configuration key "
                ++ MODE_PASSWORD_TOKEN) := by
            simp [getString, h]
          refine ⟨"missing required configuration key "
            ++ MODE_PASSWORD_TOKEN, ?_⟩
          unfold build_restapi_query
          rw [horg]
          simp only [exc_bind_ok]
          rw [huser]
          simp only [exc_bind_ok]
          rw [h1, exc_bind_error]
  obtain ⟨e, hb⟩ := hb
  exact ⟨e, init_error_of_build_error conf e hb⟩

/-- Witness for C5: the empty configuration misses every required key. -/
theorem init_fails_on_missing_required_key_witness :
    ∃ e, init ([] : Config) = .error e :=
  init_fails_on_missing_required_key [] (Or.inl rfl)

/-- C6: once the underlying source is exhausted, `extract()` returns the
empty signal and leaves the whole extractor state unchanged, so every
subsequent call keeps returning the empty signal without error. -/
theorem extract_after_exhaustion_idempotent (s : ModeState)
    (h : s.restapi.raw_results = []) :
    ModeState.extract s = (none, s) := by
  obtain ⟨⟨static, raws⟩, ts, mc⟩ := s
  have h2 : raws = [] := h
  subst h2
  rfl

/-- Witness for C6: the exhausted sample state. -/
theorem extract_after_exhaustion_idempotent_witness :
    ModeState.extract (mkModeState sampleConfigured []) =
      (none, mkModeState sampleConfigured []) :=
  extract_after_exhaustion_idempotent (mkModeState sampleConfigured []) rfl



/-- C7: under a configuration that does not override the REST extractor's
scoped view, initialization injects the static record `product: "mode"`,
and from any state carrying that static record every model `extract()`
emits has the field `product = "mode"` regardless of the API responses'
contents, the static record being preserved for later calls. -/
theorem product_static_field_mode (conf : Config) (c : ModeConfigured)
    (hscope : getScopedConf conf restapiScope = [])
    (hinit : init conf = .ok c) :
    c.static_record = [("product", JValue.str "mode")] ∧
    (∀ (s s' : ModeState) (m : DashboardExecution),
      s.restapi.static_record = [("product", JValue.str "mode")] →
      ModeState.extract s = (some (Except.ok m), s') →
      lookupField "product" m.fields = some (JValue.str "mode") ∧
      s'.restapi.static_record = [("product", JValue.str "mode")]) := by
  constructor
  · obtain ⟨q0, hb, hq, hd, hts, hmc⟩ := init_ok_components conf c hinit
    rw [hscope] at hd
    have h2 : (Except.ok [("product", JValue.str "mode")]
        : Except String Record) = .ok c.static_record := hd
    injection h2 with h3
    exact h3.symm
  · intro s s' m hstatic hex
    obtain ⟨⟨static, raws⟩, ts, mc⟩ := s
    have h2 : static = [("product", JValue.str "mode")] := hstatic
    subst h2
    cases raws with
    | nil =>
      simp [ModeState.extract, RestAPIExtractorState.extract] at hex
    | cons r rest =>
      rw [show ModeState.extract
          ⟨⟨[("product", JValue.str "mode")], r :: rest⟩, ts, mc⟩
          = (some (transformChain ts (("product", JValue.str "mode") :: r)),
             ⟨⟨[("product", JValue.str "mode")], rest⟩, ts, mc⟩) from rfl]
        at hex
      injection hex with h1 h2
      injection h1 with h1
      refine ⟨?_, by rw [← h2]⟩
      unfold transformChain at h1
      cases hts2 : tsTransform ts (("product", JValue.str "mode") :: r) with
      | error e => rw [hts2] at h1; cases h1
      | ok r2 =>
        rw [hts2] at h1
        injection h1 with h1
        rw [← h1]
        by_cases hp : ts = "product"
        · subst hp
          rw [show tsTransform "product" (("product", JValue.str "mode") :: r)
              = Except.error ("cannot parse timestamp " ++ "mode") from rfl]
            at hts2
          cases hts2
        · unfold tsTransform at hts2
          split at hts2
          · split at hts2
            · injection hts2 with h4
              rw [← h4]
              change lookupField "product" (setField ts _ _) = _
              rw [lookupField_setField_ne "product" ts _ _
                (fun hh => hp hh.symm)]
              rfl
            · cases hts2
          · cases hts2

/-- Witness for C7: the sample configuration and a one-record sample
stream. -/
theorem product_static_field_mode_witness :
    sampleConfigured.static_record = [("product", JValue.str "mode")] ∧
    lookupField "product"
      (DashboardExecution.mk
        [("product", .str "mode"),
         ("dashboard_id", .str "r1"),
         ("execution_state", .str "succeeded"),
         ("execution_timestamp", .int 1609459200)]).fields
      = some (JValue.str "mode") := by
  have h := product_static_field_mode sampleConf sampleConfigured rfl rfl
  exact ⟨h.1, (h.2 (mkModeState sampleConfigured [sampleRaw])
    (mkModeState sampleConfigured [])
    (DashboardExecution.mk
      [("product", .str "mode"),
       ("dashboard_id", .str "r1"),
       ("execution_state", .str "succeeded"),
       ("execution_timestamp", .int 1609459200)]) rfl rfl).1⟩

/-- C8: under a configuration carrying the required keys, the built chain
attaches one and the same basic-auth pair — built from `mode_user_token`
and `mode_password_token` — to all three steps. -/
theorem all_steps_share_basic_auth (conf : Config) (org user pw : String)
    (horg : getString conf ORGANIZATION = .ok org)
    (huser : getString conf MODE_ACCESS_TOKEN = .ok user)
    (hpw : getString conf MODE_PASSWORD_TOKEN = .ok pw) :
    ∃ (seeds : List Record) (s1 s2 s3 : RestApiQuerySpec),
      build_restapi_query conf =
        .ok (.query (.query (.query (.seed seeds) s1) s2) s3) ∧
      s1.auth = ⟨user, pw⟩ ∧ s2.auth = ⟨user, pw⟩ ∧ s3.auth = ⟨user, pw⟩ := by
  refine ⟨[[("organization", JValue.str org)]],
    spacesSpec ⟨user, pw⟩, reportsSpec ⟨user, pw⟩, lastRunSpec ⟨user, pw⟩,
    ?_, rfl, rfl, rfl⟩
  simp [build_restapi_query, horg, huser, hpw, exc_bind_ok, exc_pure]

/-- Witness for C8: the sample configuration. -/
theorem all_steps_share_basic_auth_witness :
    ∃ (seeds : List Record) (s1 s2 s3 : RestApiQuerySpec),
      build_restapi_query sampleConf =
        .ok (.query (.query (.query (.seed seeds) s1) s2) s3) ∧
      s1.auth = ⟨"u", "p"⟩ ∧ s2.auth = ⟨"u", "p"⟩ ∧ s3.auth = ⟨"u", "p"⟩ :=
  all_steps_share_basic_auth sampleConf "acme" "u" "p" rfl rfl rfl

/-- C9: in the network-instrumented semantics, initialization (which
builds the query chain) issues no HTTP request, while executing any step
of a query on an input record does issue the request built from the
step's url template and auth pair — HTTP execution is deferred entirely
to the extraction driver. -/
theorem build_and_init_perform_no_network_call (conf : Config) :
    (initM conf).requests = [] ∧
    ∀ (api : Api) (st : RestApiQuerySpec) (r : Record) (rest : List Record),
      ((executeStepM api st (r :: rest)).requests).head?
        = some { url := st.url, input := r, auth := st.auth } :=
  ⟨rfl, fun _ _ _ _ => rfl⟩

/-- C10: a falsy value pulled from the underlying REST extractor — an
empty record — is treated by `extract()` exactly as the end-of-stream
signal: the result is the empty signal under every transformer
configuration, so the record is never passed to the transform chain and
can never produce an output model. -/
theorem falsy_record_treated_as_end_of_stream
    (s : ModeState) (r : Record) (rest : List Record)
    (hr : s.restapi.raw_results = r :: rest)
    (hfalsy : recordTruthy (s.restapi.static_record ++ r) = false) :
    ∀ f : String,
      ModeState.extract { s with ts_field := f } =
        (none,
         { restapi := { s.restapi with raw_results := rest }
           ts_field := f
           model_class := s.model_class }) := by
  intro f
  obtain ⟨⟨static, raws⟩, ts, mc⟩ := s
  have h2 : raws = r :: rest := hr
  subst h2
  have h3 : recordTruthy (static ++ r) = false := hfalsy
  simp [ModeState.extract, RestAPIExtractorState.extract, h3]

/-- Witness for C10: an empty record in the stream, with no static record
configured, is treated as the empty signal. -/
theorem falsy_record_treated_as_end_of_stream_witness :
    ModeState.extract
      ⟨⟨[], [([] : Record)]⟩, "execution_timestamp", "m"⟩ =
      (none, ⟨⟨[], []⟩, "execution_timestamp", "m"⟩) :=
  falsy_record_treated_as_end_of_stream
    ⟨⟨[], [([] : Record)]⟩, "x", "m"⟩ [] [] rfl rfl "execution_timestamp"


end ModeDashboard
